import Mathlib

/-!
Shallow embedding of the gloweygraph renderer core (src/render2.rs and
src/render2/mod.rs) and proofs about its expansion and shading stages.

The GLSL shader stages are modelled as pure Lean functions:
  * `nodeGShader` embeds NODE_GSHADER_SOURCE's main(): one point expands to
    the three vertices of a covering triangle.
  * `edgeVertices` / `edgeGShader` embed EDGE_GSHADER_SOURCE's main(): one
    line segment expands to 12 vertices (4 triangle-strip faces).  GLSL's
    normalize of the zero vector is undefined, so `edgeGShader` returns
    `none` for a zero-length segment.
  * `shadeAtLength` / `fshaderMain` embed FSHADER_SOURCE's main().  GLSL
    division by zero yields an unspecified value, so the two spots where the
    source can divide by zero return `none`.
Exact rational / real arithmetic stands in for f32; the literal
1.7320508075689 of the node shader is kept as the exact rational it denotes.
The host-side draw functions of render2/mod.rs are modelled as the
`DrawCall` record each of them submits.
-/

namespace GloweyGraph

/-- GLSL vec4 used as an RGBA color; field names follow the accessors the
shaders use (x, y, z and a). -/
structure Vec4 (α : Type) where
  x : α
  y : α
  z : α
  a : α
  deriving DecidableEq, Repr

/-- The per-node / per-endpoint vertex record (`Node2` of src/render2.rs and
`Node` of src/render2/mod.rs; both have exactly these fields in this order). -/
structure Node (α : Type) where
  position : α × α
  inner_color : Vec4 α
  falloff : α
  falloff_color : Vec4 α
  falloff_radius : α
  inner_radius : α
  deriving DecidableEq, Repr

/-- The `QBezier` vertex record of src/render2/mod.rs. -/
structure QBezier (α : Type) where
  position0 : α × α
  position1 : α × α
  position2 : α × α
  inner_color0 : Vec4 α
  inner_color1 : Vec4 α
  falloff_color0 : Vec4 α
  falloff_color1 : Vec4 α
  falloff0 : α
  falloff1 : α
  falloff_radius0 : α
  falloff_radius1 : α
  inner_radius0 : α
  inner_radius1 : α
  deriving DecidableEq, Repr

/-- One vertex as emitted by a geometry stage: the varyings declared `out` in
both geometry shaders, plus the clip-space position (the shaders write
`gl_Position = vec4(p, 0.0, 1.0)`; only the xy part varies). -/
structure GVertex (α : Type) where
  delta : α × α
  gl_Position : α × α
  finner_color : Vec4 α
  ffalloff_color : Vec4 α
  finner_radius : α
  ffalloff_radius : α
  ffalloff : α
  deriving DecidableEq, Repr

instance {α : Type} [Field α] : Inhabited (GVertex α) :=
  ⟨⟨(0, 0), (0, 0), ⟨0, 0, 0, 0⟩, ⟨0, 0, 0, 0⟩, 0, 0, 0⟩⟩

/-- Componentwise vec2 addition. -/
def vadd2 {α : Type} [Field α] (u v : α × α) : α × α := (u.1 + v.1, u.2 + v.2)

/-- Componentwise vec2 subtraction. -/
def vsub2 {α : Type} [Field α] (u v : α × α) : α × α := (u.1 - v.1, u.2 - v.2)

/-- Scalar times vec2. -/
def vscale2 {α : Type} [Field α] (s : α) (v : α × α) : α × α := (s * v.1, s * v.2)

/-- vec2 dot product. -/
def dot2 {α : Type} [Field α] (u v : α × α) : α := u.1 * v.1 + u.2 * v.2

/-- 2D cross product (z component of the 3D cross product). -/
def cross2 {α : Type} [Field α] (u v : α × α) : α := u.1 * v.2 - u.2 * v.1

/-- Scalar times vec4 (GLSL `vec4 * float`, componentwise). -/
def v4scale {α : Type} [Field α] (s : α) (c : Vec4 α) : Vec4 α :=
  ⟨s * c.x, s * c.y, s * c.z, s * c.a⟩

/-- Componentwise vec4 addition. -/
def v4add {α : Type} [Field α] (c d : Vec4 α) : Vec4 α :=
  ⟨c.x + d.x, c.y + d.y, c.z + d.z, c.a + d.a⟩

/-- The literal 1.7320508075689 the node geometry shader writes for sqrt(3),
as the exact rational it denotes (slightly above the true sqrt(3)). -/
def sqrtThreeLit {α : Type} [Field α] : α := 17320508075689 / 10000000000000

/-- The full glow radius `inner_radius + falloff_radius` both geometry
shaders compute (`full_radius` / `radius` in the GLSL). -/
def fullRadius {α : Type} [Field α] (n : Node α) : α := n.inner_radius + n.falloff_radius

/-- Embedding of NODE_GSHADER_SOURCE's main(): expand one node (point
primitive) into the three vertices of its covering triangle.  Each local
`let` mirrors one GLSL assignment; note that the source assigns
`ginner_color[0]` — not `gfalloff_color[0]` — to `ffalloff_color`
(`gfalloff_color` is declared as an input but never read). -/
def nodeGShader {α : Type} [Field α] (n : Node α) : List (GVertex α) :=
  let finner_color := n.inner_color
  let ffalloff_color := n.inner_color
  let finner_radius := n.inner_radius
  let ffalloff := n.falloff
  let ffalloff_radius := n.falloff_radius
  let center := n.position
  let full_radius := finner_radius + ffalloff_radius
  let delta0 := vscale2 full_radius (0, 2)
  let delta1 := vscale2 full_radius (-sqrtThreeLit, -1)
  let delta2 := vscale2 full_radius (sqrtThreeLit, -1)
  [⟨delta0, vadd2 center delta0, finner_color, ffalloff_color, finner_radius,
      ffalloff_radius, ffalloff⟩,
   ⟨delta1, vadd2 center delta1, finner_color, ffalloff_color, finner_radius,
      ffalloff_radius, ffalloff⟩,
   ⟨delta2, vadd2 center delta2, finner_color, ffalloff_color, finner_radius,
      ffalloff_radius, ffalloff⟩]

/-- Clip-space position of the i-th vertex the node expansion emits. -/
def nodeVertexPos (n : Node ℚ) (i : ℕ) : ℚ × ℚ := ((nodeGShader n).getD i default).gl_Position

/-- Membership in the closed covering triangle emitted by `nodeGShader`
(half-plane form; the three vertices are in counterclockwise order). -/
def inNodeTriangle (n : Node ℚ) (p : ℚ × ℚ) : Prop :=
  0 ≤ cross2 (vsub2 (nodeVertexPos n 1) (nodeVertexPos n 0)) (vsub2 p (nodeVertexPos n 0)) ∧
  0 ≤ cross2 (vsub2 (nodeVertexPos n 2) (nodeVertexPos n 1)) (vsub2 p (nodeVertexPos n 1)) ∧
  0 ≤ cross2 (vsub2 (nodeVertexPos n 0) (nodeVertexPos n 2)) (vsub2 p (nodeVertexPos n 2))

/-- Membership in the interior of the covering triangle emitted by
`nodeGShader` (all three half-plane tests strict). -/
def strictlyInNodeTriangle (n : Node ℚ) (p : ℚ × ℚ) : Prop :=
  0 < cross2 (vsub2 (nodeVertexPos n 1) (nodeVertexPos n 0)) (vsub2 p (nodeVertexPos n 0)) ∧
  0 < cross2 (vsub2 (nodeVertexPos n 2) (nodeVertexPos n 1)) (vsub2 p (nodeVertexPos n 1)) ∧
  0 < cross2 (vsub2 (nodeVertexPos n 0) (nodeVertexPos n 2)) (vsub2 p (nodeVertexPos n 2))

/-- Claim C6 as stated: the emitted triangle strictly contains (interior
membership) every point of the closed disc of radius
`inner_radius + falloff_radius` around the node's position. -/
def claimC6Strict (n : Node ℚ) : Prop :=
  ∀ p : ℚ × ℚ,
    dot2 (vsub2 p n.position) (vsub2 p n.position) ≤ fullRadius n ^ 2 →
    strictlyInNodeTriangle n p

/-- A concrete node whose inner and falloff colors differ. -/
def exC1Node : Node ℚ := ⟨(0, 0), ⟨1, 0, 0, 1⟩, 2, ⟨0, 0, 1, 1⟩, 1, 1⟩

/-- A concrete node with inner_radius 1 and falloff_radius 0. -/
def exC6Node : Node ℚ := ⟨(0, 0), ⟨1, 0, 0, 1⟩, 2, ⟨0, 0, 0, 0⟩, 0, 1⟩

/-- A concrete node with both radii positive, centered away from the origin. -/
def exC6WNode : Node ℚ := ⟨(5, 7), ⟨1, 0, 0, 1⟩, 2, ⟨0, 1, 0, 1⟩, 1, 1⟩

/-- The two primitive topologies the renderer submits
(glium::index::PrimitiveType::Points / ::LinesList). -/
inductive PrimitiveKind : Type where
  | points : PrimitiveKind
  | linesList : PrimitiveKind
  deriving DecidableEq, Repr

/-- The compiled programs the Renderer of src/render2/mod.rs owns. -/
inductive GlslProgram : Type where
  | nodeProgram : GlslProgram
  | edgeProgram : GlslProgram
  | roundQbezierProgram : GlslProgram
  | flatQbezierProgram : GlslProgram
  deriving DecidableEq, Repr

/-- What one render_* call of src/render2/mod.rs submits to `target.draw`:
the uploaded vertex buffer, the index topology, the program, and the value
bound to the `hscale` uniform.  (The draw parameters are the same
`self.params` for every call and are omitted.) -/
structure DrawCall (V : Type) where
  vertices : List V
  indices : PrimitiveKind
  program : GlslProgram
  hscale : ℚ

/-- `Renderer::render_nodes`: points topology, node program, hscale 1.0. -/
def render_nodes (nodes : List (Node ℚ)) : DrawCall (Node ℚ) :=
  ⟨nodes, .points, .nodeProgram, 1⟩

/-- `Renderer::render_nodes_hscale`: points topology, node program, caller's hscale. -/
def render_nodes_hscale (hscale : ℚ) (nodes : List (Node ℚ)) : DrawCall (Node ℚ) :=
  ⟨nodes, .points, .nodeProgram, hscale⟩

/-- `Renderer::render_edges`: lines-list topology, edge program, hscale 1.0. -/
def render_edges (edges : List (Node ℚ)) : DrawCall (Node ℚ) :=
  ⟨edges, .linesList, .edgeProgram, 1⟩

/-- `Renderer::render_edges_hscale`: lines-list topology, edge program, caller's hscale. -/
def render_edges_hscale (hscale : ℚ) (edges : List (Node ℚ)) : DrawCall (Node ℚ) :=
  ⟨edges, .linesList, .edgeProgram, hscale⟩

/-- `Renderer::render_qbeziers`: points topology, round qbezier program, hscale 1.0. -/
def render_qbeziers (qbeziers : List (QBezier ℚ)) : DrawCall (QBezier ℚ) :=
  ⟨qbeziers, .points, .roundQbezierProgram, 1⟩

/-- `Renderer::render_qbeziers_hscale`: points topology, round qbezier program,
caller's hscale. -/
def render_qbeziers_hscale (hscale : ℚ) (qbeziers : List (QBezier ℚ)) : DrawCall (QBezier ℚ) :=
  ⟨qbeziers, .points, .roundQbezierProgram, hscale⟩

/-- `Renderer::render_flat_qbeziers`: points topology, flat qbezier program, hscale 1.0. -/
def render_flat_qbeziers (qbeziers : List (QBezier ℚ)) : DrawCall (QBezier ℚ) :=
  ⟨qbeziers, .points, .flatQbezierProgram, 1⟩

/-- `Renderer::render_flat_qbeziers_hscale`: points topology, flat qbezier program,
caller's hscale. -/
def render_flat_qbeziers_hscale (hscale : ℚ) (qbeziers : List (QBezier ℚ)) :
    DrawCall (QBezier ℚ) :=
  ⟨qbeziers, .points, .flatQbezierProgram, hscale⟩

noncomputable section

/-- GLSL `length` of a vec2: the square root of the dot product with itself. -/
def glslLength (v : ℝ × ℝ) : ℝ := Real.sqrt (v.1 * v.1 + v.2 * v.2)

/-- GLSL `normalize` of a vec2: the vector divided by its length.  For the
zero vector this divides 0 by 0; the caller (`edgeGShader`) treats that case
as undefined. -/
def glslNormalize (v : ℝ × ℝ) : ℝ × ℝ := (v.1 / glslLength v, v.2 / glslLength v)

/-- One emitted edge vertex: the geometry shader copies all five varyings
from the input vertex `a` (here, unlike `nodeGShader`, `ffalloff_color` is
taken from `gfalloff_color`). -/
def edgeVertex (a : Node ℝ) (delta pos : ℝ × ℝ) : GVertex ℝ :=
  ⟨delta, pos, a.inner_color, a.falloff_color, a.inner_radius, a.falloff_radius, a.falloff⟩

/-- Embedding of the vertex stream EDGE_GSHADER_SOURCE's main() emits, given
the already-computed `net` (= `net_delta` = 2 * normalize(second - first)).
Twelve vertices in emission order; EndPrimitive boundaries fall after
vertices 2, 5, 8 and 11 (faces 0..3).  Vertices 0..2 are the cap at `first`
plus the near strip corner, 3..8 the two strip faces, 9..11 the cap at
`second`. -/
def edgeVertices (first second net : ℝ × ℝ) (a0 a1 : Node ℝ) : List (GVertex ℝ) :=
  let radius0 := a0.inner_radius + a0.falloff_radius
  let radius1 := a1.inner_radius + a1.falloff_radius
  let d0 := vscale2 radius0 (net.2, -net.1)
  let d1 := vscale2 radius0 net
  let d2 := vscale2 radius0 (-net.2, net.1)
  let d3 := vscale2 radius1 (net.2, -net.1)
  let d4 := vscale2 radius1 (-net.2, net.1)
  let d5 := vscale2 radius1 net
  [edgeVertex a0 d0 (vsub2 first d0),
   edgeVertex a0 d1 (vsub2 first d1),
   edgeVertex a0 d2 (vsub2 first d2),
   edgeVertex a0 d0 (vsub2 first d0),
   edgeVertex a0 d2 (vsub2 first d2),
   edgeVertex a1 d3 (vsub2 second d3),
   edgeVertex a0 d2 (vsub2 first d2),
   edgeVertex a1 d4 (vsub2 second d4),
   edgeVertex a1 d3 (vsub2 second d3),
   edgeVertex a1 d5 (vadd2 second d5),
   edgeVertex a1 d3 (vsub2 second d3),
   edgeVertex a1 d4 (vsub2 second d4)]

/-- Embedding of EDGE_GSHADER_SOURCE's main(): expand one line segment into
the 12 vertices of its covering shape.  The source computes
`net_delta = 2 * normalize(second - first)`, which is undefined (normalize of
the zero vector) when the endpoints coincide; that case is modelled as
`none`. -/
def edgeGShader (e0 e1 : Node ℝ) : Option (List (GVertex ℝ)) :=
  if e0.position = e1.position then none
  else
    some (edgeVertices e0.position e1.position
      (vscale2 2 (glslNormalize (vsub2 e1.position e0.position))) e0 e1)

/-- Unit direction of the segment from the first to the second endpoint. -/
def unitDir (e0 e1 : Node ℝ) : ℝ × ℝ := glslNormalize (vsub2 e1.position e0.position)

/-- Clip-space position of the i-th emitted vertex of an edge expansion. -/
def vertexPosAt (l : List (GVertex ℝ)) (i : ℕ) : ℝ × ℝ := (l.getD i default).gl_Position

/-- Claim C2 as stated, for the four strip-face corner vertices (emission
indices 3 and 4 at the first endpoint, 5 and 7 at the second): the two long
edges are parallel to the segment direction, every corner lies at
perpendicular distance exactly the full radius of its nearer endpoint from
the segment's line, and no corner extends beyond its endpoint along the
segment direction. -/
def edgeStripSpecClaim (e0 e1 : Node ℝ) (l : List (GVertex ℝ)) : Prop :=
  cross2 (vsub2 (vertexPosAt l 5) (vertexPosAt l 3)) (unitDir e0 e1) = 0 ∧
  cross2 (vsub2 (vertexPosAt l 7) (vertexPosAt l 4)) (unitDir e0 e1) = 0 ∧
  |cross2 (vsub2 (vertexPosAt l 3) e0.position) (unitDir e0 e1)| = fullRadius e0 ∧
  |cross2 (vsub2 (vertexPosAt l 4) e0.position) (unitDir e0 e1)| = fullRadius e0 ∧
  |cross2 (vsub2 (vertexPosAt l 5) e0.position) (unitDir e0 e1)| = fullRadius e1 ∧
  |cross2 (vsub2 (vertexPosAt l 7) e0.position) (unitDir e0 e1)| = fullRadius e1 ∧
  dot2 (vsub2 (vertexPosAt l 3) e0.position) (unitDir e0 e1) = 0 ∧
  dot2 (vsub2 (vertexPosAt l 4) e0.position) (unitDir e0 e1) = 0 ∧
  dot2 (vsub2 (vertexPosAt l 5) e1.position) (unitDir e0 e1) = 0 ∧
  dot2 (vsub2 (vertexPosAt l 7) e1.position) (unitDir e0 e1) = 0

/-- What the emitted strip actually satisfies: signed perpendicular offsets
of ±2·(full radius of the nearer endpoint), no extension beyond the
endpoints along the segment direction, and long edges parallel to the
segment exactly when the two full radii agree. -/
def edgeStripActual (e0 e1 : Node ℝ) (l : List (GVertex ℝ)) : Prop :=
  cross2 (vsub2 (vertexPosAt l 3) e0.position) (unitDir e0 e1) = -(2 * fullRadius e0) ∧
  cross2 (vsub2 (vertexPosAt l 4) e0.position) (unitDir e0 e1) = 2 * fullRadius e0 ∧
  cross2 (vsub2 (vertexPosAt l 5) e0.position) (unitDir e0 e1) = -(2 * fullRadius e1) ∧
  cross2 (vsub2 (vertexPosAt l 7) e0.position) (unitDir e0 e1) = 2 * fullRadius e1 ∧
  dot2 (vsub2 (vertexPosAt l 3) e0.position) (unitDir e0 e1) = 0 ∧
  dot2 (vsub2 (vertexPosAt l 4) e0.position) (unitDir e0 e1) = 0 ∧
  dot2 (vsub2 (vertexPosAt l 5) e1.position) (unitDir e0 e1) = 0 ∧
  dot2 (vsub2 (vertexPosAt l 7) e1.position) (unitDir e0 e1) = 0 ∧
  (fullRadius e0 = fullRadius e1 →
    cross2 (vsub2 (vertexPosAt l 5) (vertexPosAt l 3)) (unitDir e0 e1) = 0 ∧
    cross2 (vsub2 (vertexPosAt l 7) (vertexPosAt l 4)) (unitDir e0 e1) = 0)

/-- First endpoint of a concrete horizontal unit edge (full radius 1). -/
def exC2A : Node ℝ := ⟨(0, 0), ⟨1, 0, 0, 1⟩, 2, ⟨0, 0, 1, 1⟩, 0, 1⟩

/-- Second endpoint of the concrete horizontal unit edge (full radius 1). -/
def exC2B : Node ℝ := ⟨(1, 0), ⟨0, 1, 0, 1⟩, 2, ⟨0, 0, 1, 1⟩, 0, 1⟩

/-- The vertex list `edgeGShader` emits for that concrete edge. -/
def exC2List : List (GVertex ℝ) :=
  edgeVertices exC2A.position exC2B.position
    (vscale2 2 (glslNormalize (vsub2 exC2B.position exC2A.position))) exC2A exC2B

/-- The five interpolated fragment-shader inputs besides `delta`
(FSHADER_SOURCE's `in` variables). -/
structure Fragment (α : Type) where
  finner_color : Vec4 α
  ffalloff_color : Vec4 α
  finner_radius : α
  ffalloff_radius : α
  ffalloff : α
  deriving DecidableEq, Repr

/-- Embedding of FSHADER_SOURCE's main() after `length = length(delta)` has
been computed.  The source divides by `finner_radius` in the first branch
and by `ffalloff_radius` in the second; GLSL division by zero yields an
unspecified value, so each case returns `none`.  Exponentiation is real
exponentiation (GLSL `pow`). -/
def shadeAtLength (fi : Fragment ℝ) (length : ℝ) : Option (Vec4 ℝ) :=
  if length ≤ fi.finner_radius then
    if fi.finner_radius = 0 then none
    else
      let travel := length / fi.finner_radius
      some (v4add (v4scale (1 - travel) fi.finner_color) (v4scale travel fi.ffalloff_color))
  else
    if fi.ffalloff_radius = 0 then none
    else
      some ⟨fi.ffalloff_color.x, fi.ffalloff_color.y, fi.ffalloff_color.z,
        fi.ffalloff_color.a *
          max 0 (1 - ((length - fi.finner_radius) / fi.ffalloff_radius) ^ fi.ffalloff)⟩

/-- Embedding of FSHADER_SOURCE's main(): shade one fragment from its
interpolated `delta` and the other varyings. -/
def fshaderMain (delta : ℝ × ℝ) (fi : Fragment ℝ) : Option (Vec4 ℝ) :=
  shadeAtLength fi (glslLength delta)

/-- The alpha component of a shading result (0 for an undefined result;
every use below is under hypotheses that make the result defined). -/
def alphaOf : Option (Vec4 ℝ) → ℝ
  | none => 0
  | some c => c.a

/-- Fragment inputs with inner_radius 0 (claim C3's failing configuration). -/
def exC3Frag : Fragment ℝ := ⟨⟨1, 0, 0, 1⟩, ⟨0, 0, 1, 1⟩, 0, 1, 2⟩

/-- Fragment inputs for the C4 witness. -/
def exC4Frag : Fragment ℝ := ⟨⟨1, 0, 0, 1⟩, ⟨0, 1, 0, 1⟩, 1, 1, 2⟩

/-- Fragment inputs for the C5 witness. -/
def exC5Frag : Fragment ℝ := ⟨⟨1, 0, 0, 1⟩, ⟨0, 0, 1, 1⟩, 1, 1, 1⟩

/-- Fragment inputs with falloff_radius 0 (claim C7's failing configuration). -/
def exC7Frag : Fragment ℝ := ⟨⟨1, 0, 0, 1⟩, ⟨0, 0, 1, 1⟩, 1, 0, 2⟩

/-- A node with both radii zero (for the C8 witness). -/
def exC8Node : Node ℚ := ⟨(3, 4), ⟨1, 0, 0, 1⟩, 2, ⟨0, 0, 1, 1⟩, 0, 0⟩

/-- First endpoint of a zero-radius edge with distinct endpoints. -/
def exC8A : Node ℝ := ⟨(0, 0), ⟨1, 0, 0, 1⟩, 1, ⟨0, 0, 1, 1⟩, 0, 0⟩

/-- Second endpoint of the zero-radius edge with distinct endpoints. -/
def exC8B : Node ℝ := ⟨(3, 4), ⟨1, 0, 0, 1⟩, 1, ⟨0, 0, 1, 1⟩, 0, 0⟩

/-- An edge endpoint used twice to form a zero-length edge. -/
def exC8Deg : Node ℝ := ⟨(2, 3), ⟨1, 0, 0, 1⟩, 1, ⟨0, 1, 0, 1⟩, 1, 1⟩

/-- Fragment inputs for the C10 witness. -/
def exC10P : Fragment ℝ := ⟨⟨1, 0, 0, 1⟩, ⟨0, 1, 0, 1⟩, 1, 1, 2⟩

/-- Fragment inputs equal to `exC10P` except in falloff_radius and falloff. -/
def exC10Q : Fragment ℝ := ⟨⟨1, 0, 0, 1⟩, ⟨0, 1, 0, 1⟩, 1, 5, 9⟩

end

/-- C1: the node expansion is supposed to carry the Node's color/falloff
attributes through unchanged, but the source assigns `ginner_color[0]` to
`ffalloff_color`: on a node whose two colors differ, every emitted vertex
carries the inner color in the falloff_color slot. -/
theorem C1_node_falloff_color_bug :
    ((nodeGShader exC1Node).map GVertex.ffalloff_color
      = [exC1Node.inner_color, exC1Node.inner_color, exC1Node.inner_color]) ∧
    exC1Node.inner_color ≠ exC1Node.falloff_color := by
  decide

/-- C9: each hscale-free render entry point of src/render2/mod.rs submits
exactly the draw its hscale variant submits at hscale = 1.0. -/
theorem C9_hscale_default_equiv :
    ∀ (nodes edges : List (Node ℚ)) (qbeziers : List (QBezier ℚ)),
      render_nodes nodes = render_nodes_hscale 1 nodes ∧
      render_edges edges = render_edges_hscale 1 edges ∧
      render_qbeziers qbeziers = render_qbeziers_hscale 1 qbeziers :=
  fun _ _ _ => ⟨rfl, rfl, rfl⟩

/-- Half-plane bound behind the slanted triangle edges: a point of the disc
of radius R satisfies 3u - cv + 2cR ≥ 0 whenever c ≥ sqrt(3)
(Cauchy-Schwarz: (3u - cv)² + (cu + 3v)² = (9 + c²)(u² + v²)). -/
theorem halfplane_aux (c R u v : ℚ) (hc3 : 3 ≤ c ^ 2) (hc0 : 0 ≤ c) (hR : 0 ≤ R)
    (h : u ^ 2 + v ^ 2 ≤ R ^ 2) : 0 ≤ 3 * u - c * v + 2 * c * R := by
  have h1 : (3 * u - c * v) ^ 2 ≤ (2 * c * R) ^ 2 := by
    nlinarith [sq_nonneg (c * u + 3 * v), sq_nonneg R, sq_nonneg c]
  have h2 : 0 ≤ 2 * c * R := by positivity
  nlinarith [h1, h2, sq_nonneg (3 * u - c * v + 2 * c * R)]

/-- A point of the disc of radius R has second coordinate at least -R. -/
theorem vband_aux (R v : ℚ) (hR : 0 ≤ R) (hv : v ^ 2 ≤ R ^ 2) : 0 ≤ v + R := by
  nlinarith [sq_nonneg (v + R), hv, hR]

/-- The three vertex positions `nodeGShader` emits, in closed form. -/
theorem nodeVertexPos_eval (n : Node ℚ) :
    nodeVertexPos n 0 = vadd2 n.position (vscale2 (fullRadius n) (0, 2)) ∧
    nodeVertexPos n 1 = vadd2 n.position (vscale2 (fullRadius n) (-sqrtThreeLit, -1)) ∧
    nodeVertexPos n 2 = vadd2 n.position (vscale2 (fullRadius n) (sqrtThreeLit, -1)) :=
  ⟨rfl, rfl, rfl⟩

/-- C6 counterexample: for the node with inner_radius 1 and falloff_radius 0
(non-negative radii), the disc point (0, -1) lies on the bottom edge of the
emitted triangle, not in its interior: the containment is not strict. -/
theorem C6_strict_containment_counterexample :
    0 ≤ exC6Node.inner_radius ∧ 0 ≤ exC6Node.falloff_radius ∧ ¬ claimC6Strict exC6Node := by
  refine ⟨by norm_num [exC6Node], by norm_num [exC6Node], fun h => ?_⟩
  have h2 := h (0, -1) (by norm_num [dot2, vsub2, exC6Node, fullRadius])
  have heval := nodeVertexPos_eval exC6Node
  simp only [strictlyInNodeTriangle, heval.1, heval.2.1, heval.2.2] at h2
  norm_num [vadd2, vsub2, vscale2, cross2, sqrtThreeLit, exC6Node, fullRadius] at h2

/-- C6 amended: the covering triangle emitted by node expansion contains
(non-strictly) the closed disc of radius inner_radius + falloff_radius
centered at the node's position, for all non-negative radii.  (The disc is
tangent to the triangle's bottom edge, so containment cannot be strict.) -/
theorem C6_disc_containment (n : Node ℚ) (hri : 0 ≤ n.inner_radius)
    (hrf : 0 ≤ n.falloff_radius) (p : ℚ × ℚ)
    (hp : dot2 (vsub2 p n.position) (vsub2 p n.position) ≤ fullRadius n ^ 2) :
    inNodeTriangle n p := by
  have heval := nodeVertexPos_eval n
  have hR : 0 ≤ fullRadius n := add_nonneg hri hrf
  have hc3 : 3 ≤ (sqrtThreeLit : ℚ) ^ 2 := by norm_num [sqrtThreeLit]
  have hc0 : (0 : ℚ) ≤ sqrtThreeLit := by norm_num [sqrtThreeLit]
  simp only [dot2, vsub2] at hp
  simp only [inNodeTriangle, heval.1, heval.2.1, heval.2.2, vadd2, vsub2, vscale2, cross2]
  set c : ℚ := sqrtThreeLit
  set R : ℚ := fullRadius n
  set a : ℚ := n.position.1
  set b : ℚ := n.position.2
  set px : ℚ := p.1
  set py : ℚ := p.2
  have hdisc : (px - a) ^ 2 + (py - b) ^ 2 ≤ R ^ 2 := by nlinarith [hp]
  have hv2 : (py - b) ^ 2 ≤ R ^ 2 := by nlinarith [sq_nonneg (px - a)]
  refine ⟨?_, ?_, ?_⟩
  · have h1 := halfplane_aux c R (px - a) (py - b) hc3 hc0 hR hdisc
    nlinarith [mul_nonneg hR h1]
  · have hvb := vband_aux R (py - b) hR hv2
    have hcR : 0 ≤ 2 * c * R := mul_nonneg (mul_nonneg (by norm_num) hc0) hR
    nlinarith [mul_nonneg hcR hvb]
  · have hdisc2 : (-(px - a)) ^ 2 + (py - b) ^ 2 ≤ R ^ 2 := by nlinarith [hdisc]
    have h1 := halfplane_aux c R (-(px - a)) (py - b) hc3 hc0 hR hdisc2
    nlinarith [mul_nonneg hR h1]

/-- C6 witness: the amended containment applied to a concrete node with both
radii 1, at its own center point. -/
theorem C6_disc_containment_witness :
    0 ≤ exC6WNode.inner_radius ∧ 0 ≤ exC6WNode.falloff_radius ∧
    dot2 (vsub2 ((5 : ℚ), (7 : ℚ)) exC6WNode.position)
        (vsub2 ((5 : ℚ), (7 : ℚ)) exC6WNode.position) ≤ fullRadius exC6WNode ^ 2 ∧
    inNodeTriangle exC6WNode ((5 : ℚ), (7 : ℚ)) :=
  ⟨by norm_num [exC6WNode], by norm_num [exC6WNode],
    by norm_num [dot2, vsub2, exC6WNode, fullRadius],
    C6_disc_containment exC6WNode (by norm_num [exC6WNode]) (by norm_num [exC6WNode])
      ((5 : ℚ), (7 : ℚ)) (by norm_num [dot2, vsub2, exC6WNode, fullRadius])⟩

/-- C3: with inner_radius = 0 the fragment shader is supposed to guard the
division by inner_radius; the source does not: at delta = (0,0) it takes the
inner branch and computes travel = 0 / 0, so the result is undefined
(modelled as none). -/
theorem C3_zero_inner_radius_divide : fshaderMain (0, 0) exC3Frag = none := by
  norm_num [fshaderMain, shadeAtLength, glslLength, exC3Frag, Real.sqrt_zero]

/-- C7: with falloff_radius = 0 the fragment shader is supposed to emit
alpha 0 past the inner radius; the source instead divides
(length - inner_radius) by 0 in the outer branch, so the result is
unspecified in GLSL (modelled as none). -/
theorem C7_zero_falloff_radius_divide : shadeAtLength exC7Frag 2 = none := by
  norm_num [shadeAtLength, exC7Frag]

/-- C8 amended: zero radii are handled — node expansion emits its three
vertices all at the node's position (a zero-area triangle) and edge
expansion is well-defined for any edge with distinct endpoints, zero radii
included; but a zero-length edge (equal endpoints) is undefined, because the
source normalizes the zero vector (see the counterexample). -/
theorem C8_degenerate_radii (n : Node ℚ) (e0 e1 : Node ℝ)
    (h1 : n.inner_radius = 0) (h2 : n.falloff_radius = 0)
    (h3 : e0.position ≠ e1.position) :
    (nodeGShader n).map GVertex.gl_Position = [n.position, n.position, n.position] ∧
    (edgeGShader e0 e1).isSome = true := by
  constructor
  · simp [nodeGShader, h1, h2, vadd2, vscale2]
  · simp [edgeGShader, h3]

/-- C8 witness: the amended statement at a zero-radius node and a
zero-radius edge with distinct endpoints. -/
theorem C8_degenerate_radii_witness :
    exC8Node.inner_radius = 0 ∧ exC8Node.falloff_radius = 0 ∧
    exC8A.position ≠ exC8B.position ∧
    ((nodeGShader exC8Node).map GVertex.gl_Position
        = [exC8Node.position, exC8Node.position, exC8Node.position] ∧
     (edgeGShader exC8A exC8B).isSome = true) :=
  ⟨rfl, rfl, by norm_num [exC8A, exC8B, Prod.ext_iff],
    C8_degenerate_radii exC8Node exC8A exC8B rfl rfl (by norm_num [exC8A, exC8B, Prod.ext_iff])⟩

/-- C8 counterexample: a zero-length edge (both endpoints equal) is a
degenerate input on which edge expansion is undefined (normalize of the zero
vector), not well-defined as the claim states. -/
theorem C8_zero_length_edge_counterexample :
    exC8Deg.position = exC8Deg.position ∧ edgeGShader exC8Deg exC8Deg = none :=
  ⟨rfl, by simp [edgeGShader]⟩

/-- C4: for inner_radius > 0, sampling the shading model at
length = inner_radius yields exactly falloff_color (the inner branch at
travel = 1), and the outer-branch alpha factor at zero elapsed outer
distance is exactly falloff_color's alpha, so the branches agree at the
boundary. -/
theorem C4_boundary_continuity (fi : Fragment ℝ) (h : 0 < fi.finner_radius)
    (he : 0 < fi.ffalloff) :
    shadeAtLength fi fi.finner_radius = some fi.ffalloff_color ∧
    fi.ffalloff_color.a * max 0 (1 -
        ((fi.finner_radius - fi.finner_radius) / fi.ffalloff_radius) ^ fi.ffalloff)
      = fi.ffalloff_color.a := by
  constructor
  · unfold shadeAtLength
    rw [if_pos le_rfl, if_neg h.ne', div_self h.ne']
    norm_num [v4add, v4scale]
  · rw [sub_self, zero_div, Real.zero_rpow he.ne']
    norm_num

/-- C4 witness: the boundary value at a concrete parameter set. -/
theorem C4_boundary_continuity_witness :
    (0 : ℝ) < exC4Frag.finner_radius ∧ (0 : ℝ) < exC4Frag.ffalloff ∧
    (shadeAtLength exC4Frag exC4Frag.finner_radius = some exC4Frag.ffalloff_color ∧
     exC4Frag.ffalloff_color.a * max 0 (1 -
         ((exC4Frag.finner_radius - exC4Frag.finner_radius) / exC4Frag.ffalloff_radius)
           ^ exC4Frag.ffalloff)
       = exC4Frag.ffalloff_color.a) :=
  ⟨zero_lt_one, zero_lt_two, C4_boundary_continuity exC4Frag zero_lt_one zero_lt_two⟩

/-- C5: for falloff > 0 and falloff_radius > 0 (and an RGBA falloff color,
so alpha ≥ 0), the shaded alpha is monotonically non-increasing in length
beyond inner_radius, and from length = inner_radius + falloff_radius on the
output is exactly falloff_color with alpha 0. -/
theorem C5_alpha_monotone (fi : Fragment ℝ) (he : 0 < fi.ffalloff)
    (hrf : 0 < fi.ffalloff_radius) (ha : 0 ≤ fi.ffalloff_color.a) :
    (∀ L1 L2 : ℝ, fi.finner_radius < L1 → L1 ≤ L2 →
        alphaOf (shadeAtLength fi L2) ≤ alphaOf (shadeAtLength fi L1)) ∧
    (∀ L : ℝ, fi.finner_radius + fi.ffalloff_radius ≤ L →
        shadeAtLength fi L
          = some ⟨fi.ffalloff_color.x, fi.ffalloff_color.y, fi.ffalloff_color.z, 0⟩) := by
  have houter : ∀ L : ℝ, fi.finner_radius < L →
      shadeAtLength fi L
        = some ⟨fi.ffalloff_color.x, fi.ffalloff_color.y, fi.ffalloff_color.z,
            fi.ffalloff_color.a *
              max 0 (1 - ((L - fi.finner_radius) / fi.ffalloff_radius) ^ fi.ffalloff)⟩ := by
    intro L hL
    unfold shadeAtLength
    rw [if_neg (not_le.mpr hL), if_neg hrf.ne']
  constructor
  · intro L1 L2 h1 h2
    rw [houter L1 h1, houter L2 (lt_of_lt_of_le h1 h2)]
    simp only [alphaOf]
    have ht1 : 0 ≤ (L1 - fi.finner_radius) / fi.ffalloff_radius :=
      div_nonneg (by linarith) hrf.le
    have htle : (L1 - fi.finner_radius) / fi.ffalloff_radius
        ≤ (L2 - fi.finner_radius) / fi.ffalloff_radius := by
      have h3 : L1 - fi.finner_radius ≤ L2 - fi.finner_radius := by linarith
      exact div_le_div_of_nonneg_right h3 hrf.le
    have hrp := Real.rpow_le_rpow ht1 htle he.le
    have hmax := max_le_max (le_refl (0 : ℝ)) (by linarith :
      1 - ((L2 - fi.finner_radius) / fi.ffalloff_radius) ^ fi.ffalloff
        ≤ 1 - ((L1 - fi.finner_radius) / fi.ffalloff_radius) ^ fi.ffalloff)
    exact mul_le_mul_of_nonneg_left hmax ha
  · intro L hL
    have hgt : fi.finner_radius < L := by linarith
    rw [houter L hgt]
    have ht : 1 ≤ (L - fi.finner_radius) / fi.ffalloff_radius := by
      rw [le_div_iff₀ hrf]; linarith
    have hp1 : (1 : ℝ) ≤ ((L - fi.finner_radius) / fi.ffalloff_radius) ^ fi.ffalloff := by
      have := Real.rpow_le_rpow zero_le_one ht he.le
      rwa [Real.one_rpow] at this
    have hmax : max 0 (1 - ((L - fi.finner_radius) / fi.ffalloff_radius) ^ fi.ffalloff) = 0 :=
      max_eq_left (by linarith)
    rw [hmax, mul_zero]

/-- C5 witness: the zero-alpha value at length inner_radius + falloff_radius
for a concrete parameter set. -/
theorem C5_alpha_monotone_witness :
    (0 : ℝ) < exC5Frag.ffalloff ∧ (0 : ℝ) < exC5Frag.ffalloff_radius ∧
    (0 : ℝ) ≤ exC5Frag.ffalloff_color.a ∧
    shadeAtLength exC5Frag (exC5Frag.finner_radius + exC5Frag.ffalloff_radius)
      = some ⟨exC5Frag.ffalloff_color.x, exC5Frag.ffalloff_color.y,
          exC5Frag.ffalloff_color.z, 0⟩ :=
  ⟨zero_lt_one, zero_lt_one, zero_le_one,
    (C5_alpha_monotone exC5Frag zero_lt_one zero_lt_one zero_le_one).2 _ le_rfl⟩

/-- C10: in the inner region (length ≤ inner_radius, inner_radius > 0) the
shaded color is independent of falloff and falloff_radius: the inner branch
reads neither. -/
theorem C10_inner_region_independent (p q : Fragment ℝ) (L : ℝ)
    (hri : 0 < p.finner_radius) (hL : L ≤ p.finner_radius)
    (hc1 : q.finner_color = p.finner_color) (hc2 : q.ffalloff_color = p.ffalloff_color)
    (hr : q.finner_radius = p.finner_radius) :
    shadeAtLength p L = shadeAtLength q L := by
  unfold shadeAtLength
  rw [hc1, hc2, hr, if_pos hL, if_pos hL, if_neg hri.ne']

/-- C10 witness: two concrete parameter sets differing only in
falloff_radius and falloff shade identically at length 1. -/
theorem C10_inner_region_independent_witness :
    (0 : ℝ) < exC10P.finner_radius ∧ (1 : ℝ) ≤ exC10P.finner_radius ∧
    exC10Q.finner_color = exC10P.finner_color ∧
    exC10Q.ffalloff_color = exC10P.ffalloff_color ∧
    exC10Q.finner_radius = exC10P.finner_radius ∧
    shadeAtLength exC10P 1 = shadeAtLength exC10Q 1 :=
  ⟨zero_lt_one, le_rfl, rfl, rfl, rfl,
    C10_inner_region_independent exC10P exC10Q 1 zero_lt_one le_rfl rfl rfl rfl⟩

/-- The four strip-corner vertex positions `edgeVertices` emits, in closed
form (emission indices 3, 4 at the first endpoint, 5, 7 at the second). -/
theorem edgeVertices_pos_eval (first second net : ℝ × ℝ) (a0 a1 : Node ℝ) :
    vertexPosAt (edgeVertices first second net a0 a1) 3
        = vsub2 first (vscale2 (a0.inner_radius + a0.falloff_radius) (net.2, -net.1)) ∧
    vertexPosAt (edgeVertices first second net a0 a1) 4
        = vsub2 first (vscale2 (a0.inner_radius + a0.falloff_radius) (-net.2, net.1)) ∧
    vertexPosAt (edgeVertices first second net a0 a1) 5
        = vsub2 second (vscale2 (a1.inner_radius + a1.falloff_radius) (net.2, -net.1)) ∧
    vertexPosAt (edgeVertices first second net a0 a1) 7
        = vsub2 second (vscale2 (a1.inner_radius + a1.falloff_radius) (-net.2, net.1)) :=
  ⟨rfl, rfl, rfl, rfl⟩

/-- C2 counterexample: on the unit horizontal edge with full radius 1 at
both endpoints, the strip corner at emission index 3 sits at perpendicular
distance 2 — twice the full radius — from the segment, so the claimed
offset of exactly the full radius is false. -/
theorem C2_offset_counterexample :
    exC2A.position ≠ exC2B.position ∧ edgeGShader exC2A exC2B = some exC2List ∧
    ¬ edgeStripSpecClaim exC2A exC2B exC2List := by
  have hne : exC2A.position ≠ exC2B.position := by norm_num [exC2A, exC2B, Prod.ext_iff]
  refine ⟨hne, ?_, ?_⟩
  · unfold edgeGShader
    rw [if_neg hne]
    rfl
  · intro hc
    obtain ⟨-, -, hoff, -⟩ := hc
    unfold exC2List at hoff
    obtain ⟨hv3, -, -, -⟩ := edgeVertices_pos_eval exC2A.position exC2B.position
      (vscale2 2 (glslNormalize (vsub2 exC2B.position exC2A.position))) exC2A exC2B
    rw [hv3] at hoff
    norm_num [unitDir, glslNormalize, glslLength, vsub2, vadd2, vscale2, cross2, fullRadius,
      exC2A, exC2B, Real.sqrt_one, abs_of_nonpos] at hoff

/-- C2 amended: for every edge with distinct endpoints, the strip corners
emitted by edge expansion lie at signed perpendicular offset exactly
±2·(inner_radius + falloff_radius) of their nearer endpoint — twice the
full radius, since the source scales by net_delta = 2·normalize(d) — the
strip does not extend beyond the endpoints along the segment direction, and
the long edges are parallel to the segment exactly when the two endpoints'
full radii are equal. -/
theorem C2_strip_geometry (e0 e1 : Node ℝ) (h : e0.position ≠ e1.position) :
    ∀ l, edgeGShader e0 e1 = some l → edgeStripActual e0 e1 l := by
  intro l hl
  unfold edgeGShader at hl
  rw [if_neg h] at hl
  obtain rfl := Option.some.inj hl
  obtain ⟨h3, h4, h5, h7⟩ := edgeVertices_pos_eval e0.position e1.position
    (vscale2 2 (glslNormalize (vsub2 e1.position e0.position))) e0 e1
  simp only [edgeStripActual, h3, h4, h5, h7]
  simp only [unitDir, glslNormalize, glslLength, fullRadius, vsub2, vadd2, vscale2, cross2, dot2]
  set x0 : ℝ := e0.position.1 with hx0def
  set y0 : ℝ := e0.position.2 with hy0def
  set x1 : ℝ := e1.position.1 with hx1def
  set y1 : ℝ := e1.position.2 with hy1def
  set r0 : ℝ := e0.inner_radius + e0.falloff_radius with hr0def
  set r1 : ℝ := e1.inner_radius + e1.falloff_radius with hr1def
  set L : ℝ := Real.sqrt ((x1 - x0) * (x1 - x0) + (y1 - y0) * (y1 - y0)) with hLdef
  have hne : ¬ (x1 - x0 = 0 ∧ y1 - y0 = 0) := by
    rintro ⟨ha, hb⟩
    exact h (Prod.ext (by linarith) (by linarith)).symm
  have hL0 : 0 < (x1 - x0) * (x1 - x0) + (y1 - y0) * (y1 - y0) := by
    rcases eq_or_ne (x1 - x0) 0 with hx | hx
    · have hy : y1 - y0 ≠ 0 := fun hy => hne ⟨hx, hy⟩
      nlinarith [mul_self_pos.mpr hy, mul_self_nonneg (x1 - x0)]
    · nlinarith [mul_self_pos.mpr hx, mul_self_nonneg (y1 - y0)]
  have hLpos : 0 < L := by rw [hLdef]; exact Real.sqrt_pos.mpr hL0
  have hLne : L ≠ 0 := hLpos.ne'
  have hLsq : L * L = (x1 - x0) * (x1 - x0) + (y1 - y0) * (y1 - y0) := by
    rw [hLdef]; exact Real.mul_self_sqrt hL0.le
  set ux : ℝ := (x1 - x0) / L with huxdef
  set uy : ℝ := (y1 - y0) / L with huydef
  have hux : ux * L = x1 - x0 := by rw [huxdef]; exact div_mul_cancel₀ _ hLne
  have huy : uy * L = y1 - y0 := by rw [huydef]; exact div_mul_cancel₀ _ hLne
  have key : ux ^ 2 + uy ^ 2 = 1 := by
    rw [huxdef, huydef]
    field_simp
    linear_combination -hLsq
  refine ⟨?_, ?_, ?_, ?_, ?_, ?_, ?_, ?_, fun hreq => ⟨?_, ?_⟩⟩
  · linear_combination (-2 * r0) * key
  · linear_combination (2 * r0) * key
  · linear_combination (-uy) * hux + ux * huy + (-2 * r1) * key
  · linear_combination (-uy) * hux + ux * huy + (2 * r1) * key
  · ring
  · ring
  · ring
  · ring
  · linear_combination (-uy) * hux + ux * huy + (2 * (ux ^ 2 + uy ^ 2)) * hreq
  · linear_combination (-uy) * hux + ux * huy + (-2 * (ux ^ 2 + uy ^ 2)) * hreq

/-- C2 witness: the amended strip geometry at the concrete unit horizontal
edge. -/
theorem C2_strip_geometry_witness :
    exC2A.position ≠ exC2B.position ∧ edgeGShader exC2A exC2B = some exC2List ∧
    edgeStripActual exC2A exC2B exC2List := by
  have hne : exC2A.position ≠ exC2B.position := by norm_num [exC2A, exC2B, Prod.ext_iff]
  have hsome : edgeGShader exC2A exC2B = some exC2List := by
    unfold edgeGShader
    rw [if_neg hne]
    rfl
  exact ⟨hne, hsome, C2_strip_geometry exC2A exC2B hne exC2List hsome⟩

end GloweyGraph
